import Mathlib

/-!
Verification of the translation façade: a shallow embedding of
`src/function_app.py` and `src/shared/services/graph_service.py`.

External HTTP traffic (identity provider, Microsoft Graph, blob store,
translation engine) is modelled by oracle arguments: an `Except` value is
`.error` when the underlying call raises an exception and `.ok r` when it
returns a response `r`.  Each embedded operation also reports the number of
network calls it performed.
-/

namespace TranslationMCP

/-! ### Credential cache (`GraphService._get_access_token`, graph_service.py lines 117-152) -/

/-- Response of the identity provider's token endpoint, as consumed by the
code: HTTP status, the optional `access_token` field and the optional
`expires_in` field of the JSON body. -/
structure TokenResponse where
  statusCode : Nat
  accessTokenField : Option String
  expiresInField : Option Int
deriving DecidableEq

/-- The process-local token cache: `self._access_token` and
`self._token_expires_at` (both initialised to `None`). -/
structure TokenCache where
  accessToken : Option String
  tokenExpiresAt : Option Int
deriving DecidableEq

/-- Python truthiness of an optional string (`None` and `""` are falsy). -/
def truthyStr : Option String → Bool
  | none => false
  | some s => s != ""

/-- Result of one `_get_access_token` call: the returned value, the cache
state after the call, and how many HTTP requests were made. -/
structure TokenFetch where
  token : Option String
  cache : TokenCache
  calls : Nat
deriving DecidableEq

/-- The cache-hit test of `_get_access_token` (lines 121-124):
`self._access_token and self._token_expires_at` are truthy and
`time.time() < self._token_expires_at - 300`. -/
def cacheHit (cache : TokenCache) (now : Int) : Bool :=
  truthyStr cache.accessToken &&
    match cache.tokenExpiresAt with
    | none => false
    | some e => e != 0 && decide (now < e - 300)

/-- Embedding of `GraphService._get_access_token`.  On a cache hit the cached
value is returned with no network call.  Otherwise one POST to the token
endpoint is made: on status 200 the cache is overwritten with the returned
`access_token` and expiry `now + expires_in` (default 3600) and the token is
returned; on any other status, or when the request raises, `None` is
returned and the cache is untouched. -/
def getAccessToken (cache : TokenCache) (now : Int)
    (transport : Except Unit TokenResponse) : TokenFetch :=
  if cacheHit cache now then
    ⟨cache.accessToken, cache, 0⟩
  else
    match transport with
    | .error _ => ⟨none, cache, 1⟩
    | .ok r =>
      if r.statusCode = 200 then
        ⟨r.accessTokenField,
         ⟨r.accessTokenField, some (now + r.expiresInField.getD 3600)⟩, 1⟩
      else ⟨none, cache, 1⟩

example :
    getAccessToken ⟨some "tok", some 1000⟩ 0 (.error ()) =
      ⟨some "tok", ⟨some "tok", some 1000⟩, 0⟩ := by decide

example :
    getAccessToken ⟨none, none⟩ 0 (.ok ⟨200, some "fresh", some 100⟩) =
      ⟨some "fresh", ⟨some "fresh", some 100⟩, 1⟩ := by decide

/-! ### Remote folder resolver (`GraphService._ensure_folder_exists`, lines 154-201) -/

/-- A child item of the drive root as inspected by the code: its optional
`name`, whether its `folder` facet is present, and its optional `id`. -/
structure DriveItem where
  name : Option String
  isFolder : Bool
  id : Option String
deriving DecidableEq

/-- Response to listing the drive root's children. -/
structure ListResponse where
  statusCode : Nat
  items : List DriveItem
deriving DecidableEq

/-- Response to the create-folder POST. -/
structure CreateResponse where
  statusCode : Nat
  id : Option String
deriving DecidableEq

/-- The matching loop of `_ensure_folder_exists` (lines 165-169): first item
whose `name` equals the requested name and whose `folder` facet is present. -/
def findFolder (items : List DriveItem) (folderName : String) : Option DriveItem :=
  items.find? fun it => it.name == some folderName && it.isFolder

/-- Result of `_ensure_folder_exists`: the folder id (or `none` on failure)
and the number of HTTP requests made. -/
structure FolderResult where
  folderId : Option String
  calls : Nat
deriving DecidableEq

/-- Embedding of `GraphService._ensure_folder_exists`.  The listing GET is
issued first; only when its status is exactly 200 is the item list searched.
When no match is found (including when the listing status is not 200) the
create POST is issued; status 200 or 201 yields the created folder's id, any
other status yields `none`.  An exception at either request yields `none`. -/
def ensureFolderExists (folderName : String) (listT : Except Unit ListResponse)
    (createT : Except Unit CreateResponse) : FolderResult :=
  match listT with
  | .error _ => ⟨none, 1⟩
  | .ok lr =>
    match (if lr.statusCode = 200 then findFolder lr.items folderName else none) with
    | some it => ⟨it.id, 1⟩
    | none =>
      match createT with
      | .error _ => ⟨none, 2⟩
      | .ok cr =>
        if cr.statusCode = 200 ∨ cr.statusCode = 201 then ⟨cr.id, 2⟩
        else ⟨none, 2⟩

example :
    ensureFolderExists "Docs" (.ok ⟨200, [⟨some "Docs", true, some "id7"⟩]⟩)
      (.error ()) = ⟨some "id7", 1⟩ := by decide

example :
    ensureFolderExists "Docs" (.ok ⟨500, []⟩) (.ok ⟨201, some "new"⟩) =
      ⟨some "new", 2⟩ := by decide

/-! ### Unique naming policy (`GraphService._get_unique_filename`, lines 203-220) -/

/-- Split a character list at its last `'.'`: `some (before, after)` when a
dot is present, `none` otherwise.  This is Python's `rsplit('.', 1)` (which
makes `s.rsplit('.', 1)` a one-element list, so that unpacking into two
variables raises `ValueError`, exactly when the result here is `none`). -/
def rsplitDotAux : List Char → Option (List Char × List Char)
  | [] => none
  | c :: cs =>
    match rsplitDotAux cs with
    | some (pre, post) => some (c :: pre, post)
    | none => if c = '.' then some ([], cs) else none

/-- `rsplit('.', 1)` on a string, as base/extension split. -/
def rsplitDot (s : String) : Option (String × String) :=
  (rsplitDotAux s.data).map fun pq => (⟨pq.1⟩, ⟨pq.2⟩)

example : rsplitDot "doc.docx" = some ("doc", "docx") := by decide
example : rsplitDot "a.b.c" = some ("a.b", "c") := by decide
example : rsplitDot "nodot" = none := by decide

/-- The character `'0'`-based digit for `n % 10`. -/
def digitChar (n : Nat) : Char := Char.ofNat (48 + n % 10)

/-- Fixed-width zero-padded decimal digits of `n`, most significant first;
models the zero-padded fields of `strftime` for in-range values. -/
def padDigits : Nat → Nat → List Char
  | 0, _ => []
  | w + 1, n => padDigits w (n / 10) ++ [digitChar n]

/-- A wall-clock instant, to one-second granularity, as used by
`datetime.now().strftime("%Y%m%d_%H%M%S")`. -/
structure DateTime where
  year : Nat
  month : Nat
  day : Nat
  hour : Nat
  minute : Nat
  second : Nat
deriving DecidableEq

/-- The `"%Y%m%d_%H%M%S"` timestamp string of an instant: eight date digits,
an underscore, six time digits. -/
def formatTimestamp (dt : DateTime) : String :=
  ⟨padDigits 4 dt.year ++ padDigits 2 dt.month ++ padDigits 2 dt.day ++
    '_' :: (padDigits 2 dt.hour ++ padDigits 2 dt.minute ++ padDigits 2 dt.second)⟩

example : formatTimestamp ⟨2026, 10, 12, 13, 45, 59⟩ = "20261012_134559" := by decide

/-- Embedding of `GraphService._get_unique_filename`, with the formatted
timestamp passed explicitly.  The name is split at the last dot (no dot:
empty extension); the result is `<name>_<user_id>_<timestamp>`, with
`.<ext>` re-appended only when the extension is non-empty. -/
def getUniqueFilename (fileName userId timestamp : String) : String :=
  let p := match rsplitDot fileName with
    | some q => q
    | none => (fileName, "")
  let unique := p.1 ++ "_" ++ userId ++ "_" ++ timestamp
  if p.2 = "" then unique else unique ++ "." ++ p.2

example :
    getUniqueFilename "report.pdf" "u1" "20261012_134559" =
      "report_u1_20261012_134559.pdf" := by decide

example : getUniqueFilename "noext" "u1" "20261012_134559" =
    "noext_u1_20261012_134559" := by decide

/-! ### Upload orchestrator (`GraphService.upload_to_onedrive`, lines 39-115) -/

/-- The service-level configuration read in `GraphService.__init__`.
`configured` is `Config.is_onedrive_enabled()`.  Modelled from the spec:
`shared/config.py` is not in the sources; per the spec the drive integration
is configured when the optional client id / secret / tenant credentials are
present, which is independent of the separate enable/disable feature flag
(`ONEDRIVE_UPLOAD_ENABLED`, the `onedriveUploadEnabled` field). -/
structure GraphConfig where
  configured : Bool
  onedriveUploadEnabled : Bool
  onedriveFolder : String
deriving DecidableEq

/-- Response of the content PUT that uploads the file bytes. -/
structure PutResponse where
  statusCode : Nat
  webUrl : Option String
  fileId : Option String
  body : String
deriving DecidableEq

/-- The dictionary returned by `upload_to_onedrive`, plus the number of HTTP
requests made across the whole call. -/
structure UploadOutcome where
  success : Bool
  info : Option String
  err : Option String
  onedriveUrl : Option String
  fileId : Option String
  fileName : Option String
  calls : Nat
deriving DecidableEq

/-- Embedding of `GraphService.upload_to_onedrive`.  Order of the guards is
the code's: the not-configured check (failure) precedes the disabled-flag
check (success with an informational note); both return before any network
activity.  Then token, folder, unique name and PUT, each failure reported in
the `error` field; the token cache after the call is returned alongside. -/
def uploadToOnedrive (cfg : GraphConfig) (cache : TokenCache) (now : Int)
    (_fileContent : List Nat) (fileName userId : String) (timestamp : String)
    (tokenT : Except Unit TokenResponse)
    (listT : Except Unit ListResponse) (createT : Except Unit CreateResponse)
    (putT : Except String PutResponse) : UploadOutcome × TokenCache :=
  if cfg.configured = false then
    (⟨false, none, some "OneDrive non configuré", none, none, none, 0⟩, cache)
  else if cfg.onedriveUploadEnabled = false then
    (⟨true, some "Upload OneDrive désactivé", none, none, none, none, 0⟩, cache)
  else
    let tf := getAccessToken cache now tokenT
    match tf.token with
    | none =>
      (⟨false, none, some "Impossible d\x27obtenir le token d\x27accès Microsoft Graph",
        none, none, none, tf.calls⟩, tf.cache)
    | some _ =>
      let fr := ensureFolderExists cfg.onedriveFolder listT createT
      match fr.folderId with
      | none =>
        (⟨false, none, some "Impossible de créer/accéder au dossier OneDrive",
          none, none, none, tf.calls + fr.calls⟩, tf.cache)
      | some _ =>
        let uname := getUniqueFilename fileName userId timestamp
        match putT with
        | .error e =>
          (⟨false, none, some ("Erreur interne: " ++ e), none, none, none,
            tf.calls + fr.calls + 1⟩, tf.cache)
        | .ok pr =>
          if pr.statusCode = 200 ∨ pr.statusCode = 201 then
            (⟨true, none, none, pr.webUrl, pr.fileId, some uname,
              tf.calls + fr.calls + 1⟩, tf.cache)
          else
            (⟨false, none,
              some ("Erreur HTTP " ++ toString pr.statusCode ++ ": " ++ pr.body),
              none, none, none, tf.calls + fr.calls + 1⟩, tf.cache)

/-! ### HTTP handlers (`src/function_app.py`) -/

/-- An HTTP response, abstracted to its status code and the distinguishing
part of its body (the error message for error responses, the payload field
the claims talk about for success responses). -/
structure HttpResp where
  status : Nat
  body : String
deriving DecidableEq

/-- The parsed JSON body of a `start_translation` request: each of the three
required fields is `some` exactly when the key is present. -/
structure ReqBody where
  blob_name : Option String
  target_language : Option String
  user_id : Option String
deriving DecidableEq

/-- The raw request body as the handler sees it: absent/empty, JSON that
fails to parse (with the `ValueError` message), or parsed fields. -/
inductive Body where
  | empty : Body
  | malformed : String → Body
  | parsed : ReqBody → Body
deriving DecidableEq

/-- Embedding of the `start_translation` handler (function_app.py lines
38-90).  `blobExists` is the blob-store existence oracle; `downstream`
models steps 2-3 (SAS URL preparation and the translation-engine call,
both in services outside `src/`), `.ok jid` being the engine-assigned job
identifier and `.error e` any exception, absorbed by the catch-all as a 500.
The 202 body is the `translation_id` field. -/
def startTranslation (b : Body) (blobExists : String → Bool)
    (downstream : Except String String) : HttpResp :=
  match b with
  | .empty => ⟨400, "Corps de requête manquant"⟩
  | .malformed e => ⟨400, "JSON invalide: " ++ e⟩
  | .parsed f =>
    if f.blob_name.isNone then ⟨400, "Paramètre manquant: blob_name"⟩
    else if f.target_language.isNone then ⟨400, "Paramètre manquant: target_language"⟩
    else if f.user_id.isNone then ⟨400, "Paramètre manquant: user_id"⟩
    else
      let bn := f.blob_name.getD ""
      if blobExists bn = false then
        ⟨404, "Fichier \x27" ++ bn ++ "\x27 non trouvé"⟩
      else
        match downstream with
        | .error e => ⟨500, "Erreur lors de la traduction: " ++ e⟩
        | .ok jid => ⟨202, jid⟩

/-- Embedding of the `check_status/{translation_id}` handler (lines 93-107).
The route parameter is checked for truthiness before the try block; the
status handler outcome is `.ok (success, payload)` or an exception. -/
def checkTranslationStatus (translationId : Option String)
    (outcome : Except String (Bool × String)) : HttpResp :=
  if truthyStr translationId = false then ⟨400, "ID de traduction manquant"⟩
  else
    match outcome with
    | .error e => ⟨500, "Erreur interne: " ++ e⟩
    | .ok r => if r.1 then ⟨200, r.2⟩ else ⟨404, r.2⟩

/-- The output blob name derivation of `get_result` (lines 125-126):
`blob_name.rsplit('.', 1)` unpacked into base and extension, then
`<base>-<target_language>.<ext>`.  `none` when the blob name has no dot, in
which case the unpacking raises `ValueError`. -/
def deriveOutputBlobName (blobName targetLanguage : String) : Option String :=
  (rsplitDot blobName).map fun p => p.1 ++ "-" ++ targetLanguage ++ "." ++ p.2

example : deriveOutputBlobName "doc.docx" "es" = some "doc-es.docx" := by decide

/-- The `ValueError` message raised by unpacking a one-element `rsplit`
result into two variables, as surfaced by the catch-all. -/
def unpackErrorMsg : String := "not enough values to unpack (expected 2, got 1)"

/-- Embedding of the `get_result` handler (lines 110-147).  Query parameters
are `some` when present; `translatedUrl` is the blob-store SAS oracle for
the derived output name (`.ok none` when the translated artifact is absent);
`odLeg` models the optional drive-mirror leg (download plus upload) taken
only when `user_id` is truthy.  A 200 body is the download URL. -/
def getTranslationResult (blobName targetLanguage userId : Option String)
    (translatedUrl : String → Except String (Option String))
    (odLeg : Except String Unit) : HttpResp :=
  if (truthyStr blobName && truthyStr targetLanguage) = false then
    ⟨400, "Paramètres manquants : blob_name, target_language"⟩
  else
    match deriveOutputBlobName (blobName.getD "") (targetLanguage.getD "") with
    | none => ⟨500, "Erreur interne: " ++ unpackErrorMsg⟩
    | some outName =>
      match translatedUrl outName with
      | .error e => ⟨500, "Erreur interne: " ++ e⟩
      | .ok none => ⟨404, "Fichier traduit introuvable"⟩
      | .ok (some url) =>
        if truthyStr userId then
          match odLeg with
          | .error e => ⟨500, "Erreur interne: " ++ e⟩
          | .ok _ => ⟨200, url⟩
        else ⟨200, url⟩

/-- The four environment variables required by the health check. -/
def requiredVars : List String :=
  ["TRANSLATOR_KEY", "TRANSLATOR_ENDPOINT", "AZURE_ACCOUNT_NAME", "AZURE_ACCOUNT_KEY"]

/-- Embedding of the `health` handler (lines 150-189).  `envTruthy` tells
which environment variables are set and truthy; `exc` is `some e` when the
body raises an exception, which the catch-all maps to a 503 (not 500).  The
200 body is the `onedrive` field of the services map. -/
def healthCheck (envTruthy : String → Bool) (onedriveEnabled : Bool)
    (exc : Option String) : HttpResp :=
  match exc with
  | some e => ⟨503, "Service unhealthy: " ++ e⟩
  | none =>
    let missing := requiredVars.filter fun v => !envTruthy v
    if missing.isEmpty = false then
      ⟨503, "Variables d\x27environnement manquantes: " ++ String.intercalate ", " missing⟩
    else
      ⟨200, if onedriveEnabled then "available" else "not configured"⟩

/-- Embedding of the `languages` handler (lines 192-209); the body either
produces the language list or raises.  A 200 body is the count. -/
def getSupportedLanguages (outcome : Except String (List String)) : HttpResp :=
  match outcome with
  | .error e => ⟨500, "Erreur interne: " ++ e⟩
  | .ok langs => ⟨200, toString langs.length⟩

/-- Embedding of the `formats` handler (lines 212-229). -/
def getSupportedFormats (outcome : Except String (List String)) : HttpResp :=
  match outcome with
  | .error e => ⟨500, "Erreur interne: " ++ e⟩
  | .ok fmts => ⟨200, toString fmts.length⟩

/-! ### Theorems about the credential cache -/

/-- Claim C2: whenever a cached token is present (truthy) and its recorded
expiry minus the 300-second margin is still in the future, `_get_access_token`
returns exactly the cached token value, makes zero HTTP requests, leaves the
cached token and expiry unchanged, and a second call within the same validity
window returns the same token value. -/
theorem tokenCache_hit_no_network (cache : TokenCache) (now : Int)
    (t : Except Unit TokenResponse) (s : String) (e : Int)
    (hs : cache.accessToken = some s) (hsne : s ≠ "")
    (he : cache.tokenExpiresAt = some e) (hene : e ≠ 0) (hfresh : now < e - 300) :
    (getAccessToken cache now t).token = some s ∧
    (getAccessToken cache now t).calls = 0 ∧
    (getAccessToken cache now t).cache = cache ∧
    ∀ (now2 : Int) (t2 : Except Unit TokenResponse), now2 < e - 300 →
      (getAccessToken (getAccessToken cache now t).cache now2 t2).token = some s := by
  have hhit : ∀ n : Int, n < e - 300 → cacheHit cache n = true := by
    intro n hn
    simp [cacheHit, truthyStr, hs, he, hsne, hene, hn]
  have h1 : getAccessToken cache now t = ⟨cache.accessToken, cache, 0⟩ := by
    simp [getAccessToken, hhit now hfresh]
  refine ⟨?_, ?_, ?_, ?_⟩
  · rw [h1, hs]
  · rw [h1]
  · rw [h1]
  · intro now2 t2 h2
    rw [h1]
    simp [getAccessToken, hhit now2 h2, hs]

/-- Witness for C2 at a concrete cache state and two concrete call times. -/
theorem tokenCache_hit_no_network_witness :
    (getAccessToken ⟨some "tok", some 1000⟩ 0 (.error ())).token = some "tok" ∧
    (getAccessToken ⟨some "tok", some 1000⟩ 0 (.error ())).calls = 0 ∧
    (getAccessToken ⟨some "tok", some 1000⟩ 0 (.error ())).cache = ⟨some "tok", some 1000⟩ ∧
    (getAccessToken (getAccessToken ⟨some "tok", some 1000⟩ 0 (.error ())).cache 5
      (.ok ⟨200, some "other", none⟩)).token = some "tok" := by
  have h := tokenCache_hit_no_network ⟨some "tok", some 1000⟩ 0 (.error ()) "tok" 1000
    rfl (by decide) rfl (by decide) (by decide)
  exact ⟨h.1, h.2.1, h.2.2.1, h.2.2.2 5 (.ok ⟨200, some "other", none⟩) (by decide)⟩

/-- Claim C1 counterexample: a fresh fetch whose `expires_in` is 100 seconds
returns a token that expires 100 seconds after the call — less than the
claimed 300-second minimum remaining validity.  The claim, quantified over
every possible `expires_in`, is therefore false of the code. -/
theorem tokenMargin_counterexample :
    (getAccessToken ⟨none, none⟩ 0 (.ok ⟨200, some "tok", some 100⟩)).token = some "tok" ∧
    (getAccessToken ⟨none, none⟩ 0 (.ok ⟨200, some "tok", some 100⟩)).cache.tokenExpiresAt =
      some 100 ∧
    ¬ (300 ≤ (100 : Int) - 0) := by decide

/-- Claim C1 (amended): provided every successful token-endpoint response
reports a lifetime `expires_in` of at least 300 seconds (the default 3600
included), every token value returned by `_get_access_token` — cached or
freshly fetched — has at least 300 seconds of remaining validity, measured
against the recorded expiry. -/
theorem tokenMargin_amended (cache : TokenCache) (now : Int)
    (t : Except Unit TokenResponse)
    (hexp : ∀ r : TokenResponse, t = .ok r → (300 : Int) ≤ r.expiresInField.getD 3600)
    (tok : String) (htok : (getAccessToken cache now t).token = some tok) :
    ∃ e : Int, (getAccessToken cache now t).cache.tokenExpiresAt = some e ∧
      300 ≤ e - now := by
  by_cases hhit : cacheHit cache now = true
  · cases hexpAt : cache.tokenExpiresAt with
    | none => simp [cacheHit, hexpAt] at hhit
    | some e =>
      have hlt : now < e - 300 := by
        simp [cacheHit, truthyStr, hexpAt] at hhit
        exact hhit.2.2
      exact ⟨e, by simp [getAccessToken, hhit, hexpAt], by omega⟩
  · unfold getAccessToken at htok ⊢
    rw [if_neg hhit] at htok ⊢
    cases t with
    | error u => simp at htok
    | ok r =>
      by_cases hst : r.statusCode = 200
      · have hle := hexp r rfl
        simp only [hst, if_pos rfl] at htok ⊢
        exact ⟨now + r.expiresInField.getD 3600, by simp, by omega⟩
      · simp [hst] at htok

/-- Witness for the amended C1 at a fresh fetch with `expires_in = 3600`. -/
theorem tokenMargin_amended_witness :
    ∃ e : Int,
      (getAccessToken ⟨none, none⟩ 0 (.ok ⟨200, some "tok", some 3600⟩)).cache.tokenExpiresAt =
        some e ∧ 300 ≤ e - 0 :=
  tokenMargin_amended ⟨none, none⟩ 0 (.ok ⟨200, some "tok", some 3600⟩)
    (by intro r hr; cases hr; decide) "tok" (by decide)

/-- Claim C9: the token refresh is atomic with respect to the cache — on the
refresh path, a non-200 response or an exception leaves the cached token and
expiry exactly as they were and returns `None`; conversely, any mutation of
the cache implies the refresh path ran and the endpoint answered 200. -/
theorem tokenRefresh_atomic (cache : TokenCache) (now : Int)
    (t : Except Unit TokenResponse) :
    (cacheHit cache now = false →
      (t = .error () ∨ ∃ r : TokenResponse, t = .ok r ∧ r.statusCode ≠ 200) →
      (getAccessToken cache now t).token = none ∧
      (getAccessToken cache now t).cache = cache) ∧
    ((getAccessToken cache now t).cache ≠ cache →
      cacheHit cache now = false ∧
      ∃ r : TokenResponse, t = .ok r ∧ r.statusCode = 200) := by
  constructor
  · intro hmiss hfail
    rcases hfail with h | ⟨r, rfl, hr⟩
    · subst h
      simp [getAccessToken, hmiss]
    · simp [getAccessToken, hmiss, hr]
  · intro hmut
    by_cases hhit : cacheHit cache now = true
    · exfalso
      exact hmut (by simp [getAccessToken, hhit])
    · refine ⟨by simpa using hhit, ?_⟩
      cases t with
      | error u =>
        exfalso
        exact hmut (by simp [getAccessToken, hhit])
      | ok r =>
        by_cases hst : r.statusCode = 200
        · exact ⟨r, rfl, hst⟩
        · exfalso
          exact hmut (by simp [getAccessToken, hhit, hst])

/-- Witness for C9: a 503 refresh attempt on a stale cache returns `None`
and leaves the stale cache intact. -/
theorem tokenRefresh_atomic_witness :
    (getAccessToken ⟨some "old", some 100⟩ 200 (.ok ⟨503, some "x", some 50⟩)).token = none ∧
    (getAccessToken ⟨some "old", some 100⟩ 200 (.ok ⟨503, some "x", some 50⟩)).cache =
      ⟨some "old", some 100⟩ :=
  (tokenRefresh_atomic ⟨some "old", some 100⟩ 200 (.ok ⟨503, some "x", some 50⟩)).1
    (by decide) (.inr ⟨⟨503, some "x", some 50⟩, rfl, by decide⟩)

/-! ### Theorems about the folder resolver -/

/-- Claim C3 counterexample: a 500 response from the listing step does not
fail the resolver; it proceeds to the creation step and, when creation
answers 201, `_ensure_folder_exists` succeeds with the created folder's id —
the claimed failure (let alone one carrying the listing status and body)
does not happen. -/
theorem ensureFolder_list_counterexample :
    ensureFolderExists "Translated Documents" (.ok ⟨500, []⟩) (.ok ⟨201, some "newid"⟩) =
      ⟨some "newid", 2⟩ ∧
    (ensureFolderExists "Translated Documents" (.ok ⟨500, []⟩)
      (.ok ⟨201, some "newid"⟩)).folderId ≠ none := by decide

/-- Claim C3 (amended): a non-200 listing response is treated exactly like
"no matching folder" — the resolver proceeds to the creation step (a second
HTTP request) — and the overall outcome is then decided by the creation
response alone: its id on status 200 or 201, failure (a `None` id, with no
status or body propagated) on any other status. -/
theorem ensureFolder_amended (folderName : String) (lr : ListResponse)
    (cr : CreateResponse) (hne : lr.statusCode ≠ 200) :
    ensureFolderExists folderName (.ok lr) (.ok cr) =
      ⟨if cr.statusCode = 200 ∨ cr.statusCode = 201 then cr.id else none, 2⟩ := by
  simp only [ensureFolderExists, if_neg hne]
  split <;> simp_all

/-- Witness for the amended C3: a 503 listing followed by a 400 creation
yields failure after both requests. -/
theorem ensureFolder_amended_witness :
    ensureFolderExists "Docs" (.ok ⟨503, []⟩) (.ok ⟨400, none⟩) =
      ⟨if (400 : Nat) = 200 ∨ (400 : Nat) = 201 then (none : Option String) else none, 2⟩ :=
  ensureFolder_amended "Docs" ⟨503, []⟩ ⟨400, none⟩ (by decide)

/-! ### Theorems about the unique naming policy -/

lemma padDigits_length (w n : Nat) : (padDigits w n).length = w := by
  induction w generalizing n with
  | zero => rfl
  | succ w ih => simp [padDigits, ih]

lemma digitChar_isDigit (n : Nat) : (digitChar n).isDigit = true := by
  have h : n % 10 < 10 := Nat.mod_lt _ (by norm_num)
  have hall : ∀ m, m < 10 → (Char.ofNat (48 + m)).isDigit = true := by decide
  exact hall _ h

lemma padDigits_isDigit (w n : Nat) : ∀ c ∈ padDigits w n, c.isDigit = true := by
  induction w generalizing n with
  | zero => simp [padDigits]
  | succ w ih =>
    intro c hc
    simp only [padDigits, List.mem_append, List.mem_singleton] at hc
    rcases hc with h | h
    · exact ih _ _ h
    · rw [h]
      exact digitChar_isDigit n

/-- The pattern asserted by claim C4, read literally: the string is
`report_u1_`, then exactly fourteen digit characters, then `.pdf`. -/
def claimPattern (s : String) : Bool :=
  s.length == 28 && s.startsWith "report_u1_" && s.endsWith ".pdf" &&
    ((s.data.drop 10).take 14).all Char.isDigit

/-- The string append at the character-list level. -/
lemma str_data_append (a b : String) : (a ++ b).data = a.data ++ b.data := rfl

/-- Claim C4 counterexample: at the instant 2026-10-12 13:45:59 the unique
name for `("report.pdf", "u1")` is `report_u1_20261012_134559.pdf`, whose
timestamp region is fifteen characters — fourteen digits separated by an
underscore — so the string does not match `report_u1_<14 digits>.pdf`. -/
theorem uniqueName_pattern_counterexample :
    getUniqueFilename "report.pdf" "u1" (formatTimestamp ⟨2026, 10, 12, 13, 45, 59⟩) =
      "report_u1_20261012_134559.pdf" ∧
    claimPattern "report_u1_20261012_134559.pdf" = false := by decide

/-- Claim C4 (amended): at every instant the unique name for
`("report.pdf", "u1")` is `report_u1_` followed by eight date digits, an
underscore, six time digits, and `.pdf` (fourteen digits in all, with an
underscore between date and time); and a second call within the same
wall-clock second — hence with the same formatted timestamp — and identical
inputs yields identical output. -/
theorem uniqueName_format (dt : DateTime) :
    ∃ d t : List Char,
      (getUniqueFilename "report.pdf" "u1" (formatTimestamp dt)).data =
        "report_u1_".data ++ (d ++ ('_' :: (t ++ ".pdf".data))) ∧
      d.length = 8 ∧ t.length = 6 ∧
      (∀ c ∈ d, c.isDigit = true) ∧ (∀ c ∈ t, c.isDigit = true) ∧
      getUniqueFilename "report.pdf" "u1" (formatTimestamp dt) =
        getUniqueFilename "report.pdf" "u1" (formatTimestamp dt) := by
  refine ⟨padDigits 4 dt.year ++ padDigits 2 dt.month ++ padDigits 2 dt.day,
          padDigits 2 dt.hour ++ padDigits 2 dt.minute ++ padDigits 2 dt.second,
          ?_, ?_, ?_, ?_, ?_, rfl⟩
  · have hsplit : rsplitDot "report.pdf" = some ("report", "pdf") := by decide
    simp [getUniqueFilename, hsplit, formatTimestamp, str_data_append, List.append_assoc]
  · simp [padDigits_length]
  · simp [padDigits_length]
  · intro c hc
    simp only [List.mem_append] at hc
    rcases hc with (h | h) | h
    · exact padDigits_isDigit _ _ _ h
    · exact padDigits_isDigit _ _ _ h
    · exact padDigits_isDigit _ _ _ h
  · intro c hc
    simp only [List.mem_append] at hc
    rcases hc with (h | h) | h
    · exact padDigits_isDigit _ _ _ h
    · exact padDigits_isDigit _ _ _ h
    · exact padDigits_isDigit _ _ _ h

/-- Witness for the amended C4 at a concrete instant. -/
theorem uniqueName_format_witness :
    ∃ d t : List Char,
      (getUniqueFilename "report.pdf" "u1" (formatTimestamp ⟨2026, 1, 2, 3, 4, 5⟩)).data =
        "report_u1_".data ++ (d ++ ('_' :: (t ++ ".pdf".data))) ∧
      d.length = 8 ∧ t.length = 6 ∧
      (∀ c ∈ d, c.isDigit = true) ∧ (∀ c ∈ t, c.isDigit = true) ∧
      getUniqueFilename "report.pdf" "u1" (formatTimestamp ⟨2026, 1, 2, 3, 4, 5⟩) =
        getUniqueFilename "report.pdf" "u1" (formatTimestamp ⟨2026, 1, 2, 3, 4, 5⟩) :=
  uniqueName_format ⟨2026, 1, 2, 3, 4, 5⟩

/-! ### Properties of the last-dot split -/

lemma rsplitDotAux_none {cs : List Char} (h : rsplitDotAux cs = none) : '.' ∉ cs := by
  induction cs with
  | nil => simp
  | cons c cs ih =>
    rw [rsplitDotAux] at h
    cases hrec : rsplitDotAux cs with
    | some pq => rw [hrec] at h; cases h
    | none =>
      rw [hrec] at h
      by_cases hc : c = '.'
      · rw [if_pos hc] at h; cases h
      · simp only [List.mem_cons, not_or]
        exact ⟨fun hcc => hc hcc.symm, ih hrec⟩

lemma rsplitDotAux_eq {cs p q : List Char} (h : rsplitDotAux cs = some (p, q)) :
    cs = p ++ '.' :: q ∧ '.' ∉ q := by
  induction cs generalizing p q with
  | nil => cases h
  | cons c cs ih =>
    rw [rsplitDotAux] at h
    cases hrec : rsplitDotAux cs with
    | some pq =>
      rw [hrec] at h
      obtain ⟨p', q'⟩ := pq
      simp only [Option.some.injEq, Prod.mk.injEq] at h
      obtain ⟨hp, hq⟩ := h
      obtain ⟨hcs, hnd⟩ := ih hrec
      subst hp hq hcs
      exact ⟨rfl, hnd⟩
    | none =>
      rw [hrec] at h
      by_cases hc : c = '.'
      · rw [if_pos hc] at h
        simp only [Option.some.injEq, Prod.mk.injEq] at h
        obtain ⟨hp, hq⟩ := h
        subst hc hq
        rw [← hp]
        exact ⟨rfl, rsplitDotAux_none hrec⟩
      · rw [if_neg hc] at h; cases h

lemma rsplitDotAux_of_not_mem {cs : List Char} (h : '.' ∉ cs) :
    rsplitDotAux cs = none := by
  cases haux : rsplitDotAux cs with
  | none => rfl
  | some pq =>
    exfalso
    obtain ⟨hcs, _⟩ := rsplitDotAux_eq (p := pq.1) (q := pq.2) (by rw [haux])
    exact h (hcs ▸ List.mem_append_right _ (List.mem_cons_self _ _))

/-! ### Theorems about the result handler's name derivation -/

/-- Claim C5: for every source blob name containing a dot, the `get_result`
handler's output blob name is `<base>-<target_language>.<ext>` where base
and extension split the source name at its last dot (the extension contains
no dot); and for `("doc.docx", "es")` the output is exactly `doc-es.docx`. -/
theorem getResult_outputName (blobName targetLanguage : String) :
    ('.' ∈ blobName.data →
      ∃ base ext : String,
        deriveOutputBlobName blobName targetLanguage =
          some (base ++ "-" ++ targetLanguage ++ "." ++ ext) ∧
        blobName.data = base.data ++ '.' :: ext.data ∧ '.' ∉ ext.data) ∧
    deriveOutputBlobName "doc.docx" "es" = some "doc-es.docx" := by
  constructor
  · intro hdot
    cases haux : rsplitDotAux blobName.data with
    | none => exact absurd hdot (rsplitDotAux_none haux)
    | some pq =>
      obtain ⟨p, q⟩ := pq
      obtain ⟨hcs, hnd⟩ := rsplitDotAux_eq haux
      exact ⟨⟨p⟩, ⟨q⟩, by simp [deriveOutputBlobName, rsplitDot, haux], hcs, hnd⟩
  · decide

/-- Witness for C5 at `("doc.docx", "es")`. -/
theorem getResult_outputName_witness :
    ∃ base ext : String,
      deriveOutputBlobName "doc.docx" "es" = some (base ++ "-" ++ "es" ++ "." ++ ext) ∧
      "doc.docx".data = base.data ++ '.' :: ext.data ∧ '.' ∉ ext.data :=
  (getResult_outputName "doc.docx" "es").1 (by decide)

/-- Claim C10 counterexample: a request whose `blob_name` is present (`doc`,
which contains no dot) but whose `target_language` is missing is answered
with 400 by the parameter check, not with the claimed 500. -/
theorem getResult_noDot_counterexample :
    getTranslationResult (some "doc") none none (fun _ => .ok none) (.ok ()) =
      ⟨400, "Paramètres manquants : blob_name, target_language"⟩ ∧
    (400 : Nat) ≠ 500 := by decide

/-- Claim C10 (amended): for every request whose `blob_name` is present,
non-empty and contains no dot, and whose `target_language` is present and
non-empty, `get_result` returns 500 (the extension unpack raises and the
catch-all absorbs it) — never 400 and never 404 — regardless of `user_id`
and of the blob store's answers. -/
theorem getResult_noDot_500 (bn : String) (hbn : bn ≠ "") (hnd : '.' ∉ bn.data)
    (tl : String) (htl : tl ≠ "") (uid : Option String)
    (translatedUrl : String → Except String (Option String))
    (odLeg : Except String Unit) :
    getTranslationResult (some bn) (some tl) uid translatedUrl odLeg =
      ⟨500, "Erreur interne: " ++ unpackErrorMsg⟩ := by
  have hderive : deriveOutputBlobName bn tl = none := by
    simp [deriveOutputBlobName, rsplitDot, rsplitDotAux_of_not_mem hnd]
  simp [getTranslationResult, truthyStr, hbn, htl, hderive]

/-- Witness for the amended C10 at `blob_name = "doc"`, `target_language =
"fr"`. -/
theorem getResult_noDot_500_witness :
    getTranslationResult (some "doc") (some "fr") none (fun _ => .ok (some "url")) (.ok ()) =
      ⟨500, "Erreur interne: " ++ unpackErrorMsg⟩ :=
  getResult_noDot_500 "doc" (by decide) (by decide) "fr" (by decide) none
    (fun _ => .ok (some "url")) (.ok ())

/-! ### Theorems about the upload orchestrator -/

/-- Claim C6 counterexample: when the OneDrive integration is not configured
(credentials absent) the disabled feature flag does not produce the claimed
success-with-note — `upload_to_onedrive` returns a failure (`success =
False` with the not-configured error), though still with zero network
calls. -/
theorem uploadDisabled_counterexample :
    (uploadToOnedrive ⟨false, false, "Translated Documents"⟩ ⟨none, none⟩ 0 [] "f.txt" "u1"
        "20260101_000000" (.error ()) (.error ()) (.error ()) (.error "x")).1.success =
      false ∧
    (uploadToOnedrive ⟨false, false, "Translated Documents"⟩ ⟨none, none⟩ 0 [] "f.txt" "u1"
        "20260101_000000" (.error ()) (.error ()) (.error ()) (.error "x")).1.err =
      some "OneDrive non configuré" := by decide

/-- Claim C6 (amended): when the OneDrive integration is configured and the
upload feature flag is administratively disabled, `upload_to_onedrive`
returns success carrying the informational note, performs zero network calls
(no token exchange, no folder resolution, no PUT), and leaves the token
cache untouched — for every file content, file name, user id, timestamp and
environment behaviour. -/
theorem uploadDisabled_amended (folder : String) (cache : TokenCache) (now : Int)
    (content : List Nat) (fileName userId timestamp : String)
    (tokenT : Except Unit TokenResponse) (listT : Except Unit ListResponse)
    (createT : Except Unit CreateResponse) (putT : Except String PutResponse) :
    uploadToOnedrive ⟨true, false, folder⟩ cache now content fileName userId timestamp
        tokenT listT createT putT =
      (⟨true, some "Upload OneDrive désactivé", none, none, none, none, 0⟩, cache) := rfl

/-! ### Theorems about the HTTP handlers -/

/-- Claim C7: with all three fields present, `start_translation` answers 202
with the engine-assigned job identifier (non-empty whenever the engine's
identifier is) when the source blob exists and the downstream calls succeed,
and 404 whenever the source blob is absent, regardless of the values of the
other fields and of the downstream behaviour. -/
theorem startTranslation_statuses (bn tl uid : String) (ex : String → Bool)
    (ds : Except String String) :
    (∀ jid : String, ex bn = true → ds = .ok jid → jid ≠ "" →
      startTranslation (.parsed ⟨some bn, some tl, some uid⟩) ex ds = ⟨202, jid⟩ ∧
      jid ≠ "") ∧
    (ex bn = false →
      startTranslation (.parsed ⟨some bn, some tl, some uid⟩) ex ds =
        ⟨404, "Fichier \x27" ++ bn ++ "\x27 non trouvé"⟩) := by
  constructor
  · intro jid hex hds hne
    subst hds
    exact ⟨by simp [startTranslation, hex], hne⟩
  · intro hex
    simp [startTranslation, hex]

/-- Witness for C7: a concrete existing blob yields 202 with the engine's
job id; the same request against an empty blob store yields 404. -/
theorem startTranslation_statuses_witness :
    (startTranslation (.parsed ⟨some "doc.docx", some "es", some "u1"⟩)
        (fun s => s == "doc.docx") (.ok "job-1") = ⟨202, "job-1"⟩ ∧ "job-1" ≠ "") ∧
    startTranslation (.parsed ⟨some "doc.docx", some "es", some "u1"⟩)
        (fun _ => false) (.ok "job-1") =
      ⟨404, "Fichier \x27" ++ "doc.docx" ++ "\x27 non trouvé"⟩ :=
  ⟨(startTranslation_statuses "doc.docx" "es" "u1" (fun s => s == "doc.docx")
      (.ok "job-1")).1 "job-1" (by decide) rfl (by decide),
   (startTranslation_statuses "doc.docx" "es" "u1" (fun _ => false)
      (.ok "job-1")).2 rfl⟩

/-- Claim C8 counterexample: the `health` handler's catch-all converts an
unhandled exception into a 503 — not the claimed uniform 500. -/
theorem catchAll_counterexample :
    healthCheck (fun _ => true) true (some "boom") = ⟨503, "Service unhealthy: boom"⟩ ∧
    (503 : Nat) ≠ 500 := by decide

/-- Claim C8 (amended): every handler wraps its body in a catch-all that
converts an unhandled exception into an error response carrying the
exception's message, so no exception propagates; `start_translation`,
`check_status`, `get_result`, `languages` and `formats` use status 500,
while `health`'s catch-all uses status 503. -/
theorem catchAll_statuses (e : String) :
    (∀ (bn tl uid : String) (ex : String → Bool), ex bn = true →
      startTranslation (.parsed ⟨some bn, some tl, some uid⟩) ex (.error e) =
        ⟨500, "Erreur lors de la traduction: " ++ e⟩) ∧
    (∀ tid : String, tid ≠ "" →
      checkTranslationStatus (some tid) (.error e) = ⟨500, "Erreur interne: " ++ e⟩) ∧
    (∀ (uid : Option String) (odLeg : Except String Unit),
      getTranslationResult (some "a.b") (some "fr") uid (fun _ => .error e) odLeg =
        ⟨500, "Erreur interne: " ++ e⟩) ∧
    (∀ (env : String → Bool) (flag : Bool),
      healthCheck env flag (some e) = ⟨503, "Service unhealthy: " ++ e⟩) ∧
    getSupportedLanguages (.error e) = ⟨500, "Erreur interne: " ++ e⟩ ∧
    getSupportedFormats (.error e) = ⟨500, "Erreur interne: " ++ e⟩ := by
  refine ⟨?_, ?_, ?_, ?_, rfl, rfl⟩
  · intro bn tl uid ex hex
    simp [startTranslation, hex]
  · intro tid htid
    simp [checkTranslationStatus, truthyStr, htid]
  · intro uid odLeg
    have hderive : deriveOutputBlobName "a.b" "fr" = some "a-fr.b" := by decide
    simp [getTranslationResult, truthyStr, hderive]
  · intro env flag
    rfl

/-- Witness for the amended C8 at the concrete exception message `boom`. -/
theorem catchAll_statuses_witness :
    startTranslation (.parsed ⟨some "doc.docx", some "es", some "u1"⟩)
        (fun _ => true) (.error "boom") =
      ⟨500, "Erreur lors de la traduction: " ++ "boom"⟩ ∧
    checkTranslationStatus (some "tid") (.error "boom") =
      ⟨500, "Erreur interne: " ++ "boom"⟩ ∧
    getTranslationResult (some "a.b") (some "fr") none (fun _ => .error "boom") (.ok ()) =
      ⟨500, "Erreur interne: " ++ "boom"⟩ ∧
    healthCheck (fun _ => true) true (some "boom") =
      ⟨503, "Service unhealthy: " ++ "boom"⟩ ∧
    getSupportedLanguages (.error "boom") = ⟨500, "Erreur interne: " ++ "boom"⟩ ∧
    getSupportedFormats (.error "boom") = ⟨500, "Erreur interne: " ++ "boom"⟩ := by
  obtain ⟨h1, h2, h3, h4, h5, h6⟩ := catchAll_statuses "boom"
  exact ⟨h1 "doc.docx" "es" "u1" (fun _ => true) rfl, h2 "tid" (by decide),
    h3 none (.ok ()), h4 (fun _ => true) true, h5, h6⟩

end TranslationMCP
